import Mathlib

/-!
Verification development for the EduQGen question-generation application.

The repository's visible sources are the React frontend pages
(`QuestionGeneratorPage.jsx`, `QuestionsPage.jsx`, the unnamed
`PdfQuestionGenerator` component, `api.js`, ...).  Those are embedded
directly below.  The backend question-generation engine (normalizer,
planner, backends, deduplicator, assembler) is not part of the visible
sources; where a property depends on it, the engine is modelled from the
specification and each such definition is marked `Modelled from the spec`.
-/

namespace EduQGen

/-- The six ordered Bloom taxonomy levels used throughout the application
(`taxonomyLevels` in `QuestionGeneratorPage.jsx` and `QuestionsPage.jsx`). -/
inductive TaxonomyLevel where
  | remember
  | understand
  | apply
  | analyze
  | evaluate
  | create
deriving DecidableEq, Repr

/-- The three difficulty tiers (`difficultyLevels` in the frontend pages). -/
inductive Difficulty where
  | easy
  | medium
  | hard
deriving DecidableEq, Repr

/-- Canonical ordering of taxonomy levels, Remember through Create. -/
def canonicalTaxonomy : List TaxonomyLevel :=
  [.remember, .understand, .apply, .analyze, .evaluate, .create]

/-- Canonical ordering of difficulty tiers: easy, medium, hard. -/
def canonicalDifficulty : List Difficulty :=
  [.easy, .medium, .hard]

/-- Whitespace characters, as JavaScript `trim` sees the common ones. -/
def isSpaceChar (c : Char) : Bool :=
  c = ' ' || c = '\t' || c = '\n' || c = '\r'

/-- Model of `String.prototype.trim`: strip leading and trailing
whitespace. -/
def trimChars (cs : List Char) : List Char :=
  ((cs.dropWhile isSpaceChar).reverse.dropWhile isSpaceChar).reverse

/-- Model of `String.prototype.trim` on strings. -/
def jsTrim (s : String) : String :=
  String.mk (trimChars s.data)

/-- Split a character list on a separator character, keeping empty pieces. -/
def splitOnChar (sep : Char) : List Char → List Char → List (List Char)
  | [], cur => [cur.reverse]
  | c :: cs, cur =>
    if c = sep then cur.reverse :: splitOnChar sep cs []
    else splitOnChar sep cs (c :: cur)

/-- Join words with single spaces. -/
def joinWithSpace : List String → String
  | [] => ""
  | [w] => w
  | w :: ws => w ++ " " ++ joinWithSpace ws

/-- String values of the taxonomy checkboxes in `QuestionGeneratorPage.jsx`
(lines 311-318), in the order they appear there. -/
def taxonomyLevelValues : List String :=
  ["remember", "understand", "apply", "analyze", "evaluate", "create"]

/-- String values of the difficulty checkboxes in `QuestionGeneratorPage.jsx`
(lines 320-324). -/
def difficultyLevelValues : List String :=
  ["easy", "medium", "hard"]

/-- Taxonomy checkbox values offered by the `PdfQuestionGenerator` component
(`src/unnamed/part_003`, lines 341-346): the legacy Bloom labels. -/
def pdfTaxonomyOptionValues : List String :=
  ["KNOWLEDGE", "COMPREHENSION", "APPLICATION", "ANALYSIS", "SYNTHESIS", "EVALUATION"]

/-- Difficulty checkbox values offered by `PdfQuestionGenerator`
(`src/unnamed/part_003`, lines 359-361). -/
def pdfDifficultyOptionValues : List String :=
  ["EASY", "MEDIUM", "HARD"]

/-- Initial `taxonomyLevels` state of `PdfQuestionGenerator`
(`src/unnamed/part_003`, line 122). -/
def pdfDefaultTaxonomyLevels : List String :=
  ["KNOWLEDGE", "COMPREHENSION", "APPLICATION"]

/-- Initial `difficultyLevels` state of `PdfQuestionGenerator`
(`src/unnamed/part_003`, line 123). -/
def pdfDefaultDifficultyLevels : List String :=
  ["EASY", "MEDIUM"]

/-- The `min` attribute of the `num_questions` input in
`QuestionGeneratorPage.jsx` (line 655). -/
def numQuestionsInputMin : Nat := 1

/-- The `max` attribute of the `num_questions` input in
`QuestionGeneratorPage.jsx` (line 656). -/
def numQuestionsInputMax : Nat := 20

/-- The `min` prop of the `NumberInput` in `PdfQuestionGenerator`
(`src/unnamed/part_003`, line 369). -/
def pdfNumQuestionsMin : Nat := 1

/-- The `max` prop of the `NumberInput` in `PdfQuestionGenerator`
(`src/unnamed/part_003`, line 370). -/
def pdfNumQuestionsMax : Nat := 20

/-- The `formData` state of `QuestionGeneratorPage` (lines 301-309).
`num_questions` is kept as an integer value of the numeric input. -/
structure GenFormData where
  subject_id : String
  topic_id : String
  context : String
  taxonomy_levels : List String
  difficulty_levels : List String
  num_questions : Int
  use_openai : Bool
deriving DecidableEq, Repr

/-- `handleCheckboxChange` of `QuestionGeneratorPage` (lines 379-395),
restricted to the list field it updates: when checked, the value is appended
to the current list; when unchecked, the value is filtered out. -/
def handleCheckboxChange (checked : Bool) (current : List String) (value : String) :
    List String :=
  if checked then current ++ [value]
  else current.filter (fun item => item ≠ value)

/-- `validateTextForm` of `QuestionGeneratorPage` (lines 409-431): returns the
first failing check's error message, or `none` when the form is valid.  The
JavaScript guard `!formData.context || formData.context.trim().length < 10`
collapses to the trimmed-length test because an empty string trims to length
zero. -/
def validateTextForm (fd : GenFormData) : Option String :=
  if fd.subject_id = "" then some "Please select a subject"
  else if (jsTrim fd.context).length < 10 then
    some "Please provide a context with at least 10 characters"
  else if fd.taxonomy_levels = [] then some "Please select at least one taxonomy level"
  else if fd.difficulty_levels = [] then some "Please select at least one difficulty level"
  else none

/-- A selected browser file as the pages see it: `name`, `size`, and the MIME
`type` field tested by `handleFileChange`. -/
structure JsFile where
  name : String
  size : Nat
  mimeType : String
deriving DecidableEq, Repr

/-- `validatePdfForm` of `QuestionGeneratorPage` (lines 433-455). -/
def validatePdfForm (fd : GenFormData) (pdfFile : Option JsFile) : Option String :=
  if fd.subject_id = "" then some "Please select a subject"
  else if pdfFile = none then some "Please upload a PDF file"
  else if fd.taxonomy_levels = [] then some "Please select at least one taxonomy level"
  else if fd.difficulty_levels = [] then some "Please select at least one difficulty level"
  else none

/-- File-selection state of `QuestionGeneratorPage`: the `pdfFile` React
state, the `error` state, and the file input element's current value. -/
structure GenPageFileState where
  pdfFile : Option JsFile
  error : Option String
  inputValue : Option JsFile
deriving DecidableEq, Repr

/-- `handleFileChange` of `QuestionGeneratorPage` (lines 397-407).  The
browser first places the selected file in the input; a PDF is stored in
`pdfFile` and clears the error, any other file resets `pdfFile` to `null`,
sets the error, and clears the input.  When no file was selected neither
branch runs. -/
def handleFileChange (selected : Option JsFile) (st : GenPageFileState) :
    GenPageFileState :=
  let st1 : GenPageFileState := { st with inputValue := selected }
  match selected with
  | some f =>
    if f.mimeType = "application/pdf" then
      { st1 with pdfFile := some f, error := none }
    else
      { st1 with pdfFile := none, error := some "Please upload a PDF file",
                 inputValue := none }
  | none => st1

/-- File-selection state of `PdfQuestionGenerator` (`src/unnamed/part_003`):
its `pdfFile` state and the input element's value. -/
structure PdfPageFileState where
  pdfFile : Option JsFile
  inputValue : Option JsFile
deriving DecidableEq, Repr

/-- `handleFileChange` of `PdfQuestionGenerator` (`src/unnamed/part_003`,
lines 192-207).  Its `else` branch also catches the no-file case, resetting
`pdfFile` and the input. -/
def pdfPageHandleFileChange (selected : Option JsFile) (st : PdfPageFileState) :
    PdfPageFileState :=
  let st1 : PdfPageFileState := { st with inputValue := selected }
  match selected with
  | some f =>
    if f.mimeType = "application/pdf" then { st1 with pdfFile := some f }
    else { st1 with pdfFile := none, inputValue := none }
  | none => { st1 with pdfFile := none, inputValue := none }

/-- The multipart request `handleSubmit` builds on the PDF tab
(`QuestionGeneratorPage.jsx`, lines 483-494): the attached file plus the form
fields. -/
structure PdfGenerateRequest where
  file : JsFile
  subject_id : String
  topic_id : String
  taxonomy_levels : List String
  difficulty_levels : List String
  num_questions : Int
  use_openai : Bool
deriving DecidableEq, Repr

/-- The PDF branch of `handleSubmit` (lines 457-495): the request is sent only
when `validatePdfForm` passes, and it attaches the current `pdfFile`. -/
def submitPdfRequest (fd : GenFormData) (st : GenPageFileState) :
    Option PdfGenerateRequest :=
  if validatePdfForm fd st.pdfFile = none then
    match st.pdfFile with
    | some f =>
      some { file := f, subject_id := fd.subject_id, topic_id := fd.topic_id,
             taxonomy_levels := fd.taxonomy_levels,
             difficulty_levels := fd.difficulty_levels,
             num_questions := fd.num_questions, use_openai := fd.use_openai }
    | none => none
  else none

/-- The text branch of `handleSubmit` (lines 470-480): the request data is
sent only when `validateTextForm` passes. -/
def submitTextRequest (fd : GenFormData) : Option GenFormData :=
  if validateTextForm fd = none then some fd else none

/-- `itemsPerPage` of `QuestionsPage.jsx` (line 239). -/
def itemsPerPage : Nat := 10

/-- The total-page computation of `fetchQuestions` in `QuestionsPage.jsx`
(line 289): `Math.max(1, Math.ceil(response.data.length / itemsPerPage))`. -/
def computeTotalPages (respLen : Nat) : Nat :=
  max 1 ((respLen + (itemsPerPage - 1)) / itemsPerPage)

/-- The slice of the stored question list that a `skip`/`limit` query returns;
`questionService.getQuestions` (`api.js`, lines 86-96) passes
`skip = (currentPage - 1) * itemsPerPage` and `limit = itemsPerPage`. -/
def fetchPage (allQuestions : List String) (skip limit : Nat) : List String :=
  (allQuestions.drop skip).take limit

/-- The `disabled` condition of the Next button in `QuestionsPage.jsx`
(line 502): `currentPage === totalPages`. -/
def nextButtonDisabled (currentPage totalPages : Nat) : Bool :=
  currentPage = totalPages

/-- The Next button's click action (`QuestionsPage.jsx`, line 501):
`setCurrentPage(prev => Math.min(totalPages, prev + 1))`. -/
def nextPageClick (totalPages currentPage : Nat) : Nat :=
  min totalPages (currentPage + 1)

/-! ## The question-generation engine

The backend engine itself is not among the visible sources; the definitions
below are modelled from the specification (sections 3, 4, 6 and 7). -/

/-- Modelled from the spec (section 6 error surface): the engine's typed
errors.  The backend module raising them is not in the visible sources. -/
inductive GenError where
  | emptyContentError
  | invalidRequestError
  | generationBackendError
deriving DecidableEq, Repr

/-- Modelled from the spec (section 3, GenerationRequest): subject id,
optional topic id, source content, requested level sets, target count,
backend selector.  The backend request model is not in the visible
sources. -/
structure GenerationRequest where
  subjectId : Int
  topicId : Option Int
  content : String
  taxonomyLevels : List TaxonomyLevel
  difficultyLevels : List Difficulty
  numQuestions : Int
  useOpenai : Bool

/-- Modelled from the spec (section 3): a (taxonomy level, difficulty level,
count) plan triple. -/
structure GenerationPlanItem where
  taxonomyLevel : TaxonomyLevel
  difficultyLevel : Difficulty
  count : Nat
deriving DecidableEq, Repr

/-- Modelled from the spec (section 4.3): the cross-product of the requested
taxonomy levels and difficulty levels in the fixed canonical ordering. -/
def planCells (tax : List TaxonomyLevel) (diff : List Difficulty) :
    List (TaxonomyLevel × Difficulty) :=
  (canonicalTaxonomy.filter (fun t => decide (t ∈ tax))).flatMap
    (fun t => (canonicalDifficulty.filter (fun d => decide (d ∈ diff))).map
      (fun d => (t, d)))

/-- Modelled from the spec (section 4.3): assign `base` to every cell, then
one extra each to the first `remainder` cells in canonical order. -/
def distributeCounts (base : Nat) :
    Nat → List (TaxonomyLevel × Difficulty) → List GenerationPlanItem
  | _, [] => []
  | rem, c :: cs =>
    if rem = 0 then ⟨c.1, c.2, base⟩ :: distributeCounts base 0 cs
    else ⟨c.1, c.2, base + 1⟩ :: distributeCounts base (rem - 1) cs

/-- Modelled from the spec (section 4.3): `base = total / cells`,
`remainder = total % cells`, distributed over the canonical cells; cells with
a zero count are dropped from the plan. -/
def buildPlan (tax : List TaxonomyLevel) (diff : List Difficulty) (total : Nat) :
    List GenerationPlanItem :=
  let cells := planCells tax diff
  (distributeCounts (total / cells.length) (total % cells.length) cells).filter
    (fun it => decide (it.count ≠ 0))

/-- Modelled from the spec (section 4.1): the minimum trimmed content length
for text mode. -/
def minContentLength : Nat := 10

/-- Modelled from the spec (section 4.1): the upper bound of a chunk's size
window. -/
def chunkWindowMax : Nat := 800

/-- Sentences of a text: split on full stops, trimmed, empties dropped. -/
def splitSentences (s : String) : List String :=
  (((splitOnChar '.' s.data []).map trimChars).filter
    (fun t => decide (t ≠ []))).map String.mk

/-- Modelled from the spec (section 4.1): greedy packing of whole sentences
into chunks bounded by `chunkWindowMax`, never splitting mid-sentence. -/
def packSentences : List String → List String → List (List String)
  | [], cur => if cur.isEmpty then [] else [cur]
  | s :: rest, cur =>
    if cur.isEmpty then packSentences rest [s]
    else if (joinWithSpace (cur ++ [s])).length ≤ chunkWindowMax then
      packSentences rest (cur ++ [s])
    else cur :: packSentences rest [s]

/-- Lower-case a text and replace every non-alphanumeric character by a
space. -/
def cleanedChars (s : String) : List Char :=
  s.data.map (fun c => if c.isAlphanum then c.toLower else ' ')

/-- The space-separated words of the cleaned text (empty pieces kept). -/
def wordsOf (s : String) : List String :=
  (splitOnChar ' ' (cleanedChars s) []).map String.mk

/-- Lower-case a text and replace every non-alphanumeric character by a
space, then split into words.  Words shorter than three characters are
dropped (stop-word filtering). -/
def tokenizeWords (s : String) : List String :=
  (wordsOf s).filter (fun w => decide (3 ≤ w.length))

/-- First occurrences of each word, in order. -/
def uniqueFirst : List String → List String → List String
  | [], _ => []
  | w :: ws, seen =>
    if w ∈ seen then uniqueFirst ws seen
    else w :: uniqueFirst ws (w :: seen)

/-- Modelled from the spec (section 4.2): the number of top-ranked phrases
kept per chunk. -/
def conceptTopK : Nat := 5

/-- Modelled from the spec (section 3, ContentChunk): ordered index, text
span, derived concepts, plus the anchor sentence the Local backend uses. -/
structure ContentChunk where
  index : Nat
  text : String
  sentences : List String
  concepts : List String
  anchor : String
deriving DecidableEq, Repr

/-- Modelled from the spec (sections 4.1 and 4.2): build the ordered chunks
of a content string, each with its top concepts and its highest-scoring
(longest) sentence as anchor. -/
def mkChunks (content : String) : List ContentChunk :=
  (packSentences (splitSentences content) []).enum.map (fun p =>
    let text := joinWithSpace p.2
    { index := p.1, text := text, sentences := p.2,
      concepts := (uniqueFirst (tokenizeWords text) []).take conceptTopK,
      anchor := p.2.foldl (fun best s =>
        if best.length < s.length then s else best) "" })

/-- Modelled from the spec (section 4.1): normalization fails with
`EmptyContentError` if the trimmed content is below the minimum length. -/
def chunkContent (content : String) : Except GenError (List ContentChunk) :=
  if (jsTrim content).length < minContentLength then .error .emptyContentError
  else .ok (mkChunks content)

/-- Modelled from the spec (section 3): which backend produced a candidate. -/
inductive Provenance where
  | remote
  | localRule
deriving DecidableEq, Repr

/-- Modelled from the spec (section 3, QuestionCandidate): content, answer,
optional explanation, the single taxonomy level and single difficulty level,
and a provenance tag. -/
structure QuestionCandidate where
  content : String
  answer : String
  explanation : Option String
  taxonomyLevel : TaxonomyLevel
  difficultyLevel : Difficulty
  provenance : Provenance
deriving DecidableEq, Repr

/-- Modelled from the spec (section 4.4): the fixed bank of taxonomy-level
question templates of the Local-Rule backend. -/
def questionTemplate (t : TaxonomyLevel) (concept anchor : String) : String :=
  match t with
  | .remember => "What is " ++ concept ++ "?"
  | .understand => "Explain the concept of " ++ concept ++ "."
  | .apply => "How would you apply " ++ concept ++ " in a new situation?"
  | .analyze => "Examine the role of " ++ concept ++ " in the following: " ++ anchor
  | .evaluate => "Assess the validity of " ++ concept ++ " in the context of " ++ anchor
  | .create => "Design a new example that makes use of " ++ concept ++ "."

/-- Modelled from the spec (section 4.5): the Local backend's optional
explanation, derived only when a second supporting sentence with topical
overlap exists. -/
def localExplanation (ch : ContentChunk) (concept : String) : Option String :=
  (ch.sentences.filter (fun s =>
    decide (s ≠ ch.anchor) && (tokenizeWords s).contains concept)).head?

/-- Modelled from the spec (sections 4.4 and 4.5): one Local-backend
candidate instantiated from a chunk's concept and anchor sentence; the
answer is extractive (the anchor sentence itself). -/
def mkLocalCandidate (t : TaxonomyLevel) (d : Difficulty) (ch : ContentChunk)
    (concept : String) : QuestionCandidate :=
  { content := questionTemplate t concept ch.anchor, answer := ch.anchor,
    explanation := localExplanation ch concept,
    taxonomyLevel := t, difficultyLevel := d, provenance := .localRule }

/-- One round of round-robin drawing: take the head concept of every chunk,
then recurse on the tails; `fuel` bounds the number of rounds. -/
def roundRobinRounds : Nat → List (ContentChunk × List String) →
    List (ContentChunk × String)
  | 0, _ => []
  | fuel + 1, ls =>
    let heads := ls.filterMap (fun p => p.2.head?.map (fun c => (p.1, c)))
    let tails := (ls.map (fun p => (p.1, p.2.tail))).filter
      (fun p => decide (p.2 ≠ []))
    heads ++ roundRobinRounds fuel tails

/-- Modelled from the spec (section 4.4): round-robin cycling through the
chunks, drawing one concept from each chunk in turn. -/
def roundRobinConcepts (chunks : List ContentChunk) :
    List (ContentChunk × String) :=
  roundRobinRounds ((chunks.map (fun ch => ch.concepts.length)).sum)
    (chunks.map (fun ch => (ch, ch.concepts)))

/-- Keep only the first candidate for each distinct question text. -/
def distinctByContent : List QuestionCandidate → List String → List QuestionCandidate
  | [], _ => []
  | c :: cs, seen =>
    if c.content ∈ seen then distinctByContent cs seen
    else c :: distinctByContent cs (c.content :: seen)

/-- Modelled from the spec (section 4.4): the Local-Rule backend produces up
to `count` distinct candidates for one (taxonomy, difficulty) cell, or fewer
when the chunks and concepts are exhausted — a recognized shortfall, not an
error. -/
def localGenerateCell (chunks : List ContentChunk) (t : TaxonomyLevel)
    (d : Difficulty) (count : Nat) : List QuestionCandidate :=
  (distinctByContent
      ((roundRobinConcepts chunks).map (fun p => mkLocalCandidate t d p.1 p.2))
      []).take count

/-- Modelled from the spec (section 4.6): minimum accepted question text
length. -/
def minQuestionLength : Nat := 5

/-- Modelled from the spec (section 4.6): lowercase, whitespace-collapsed,
punctuation-stripped normalization of a question text. -/
def normalizeText (s : String) : String :=
  joinWithSpace ((wordsOf s).filter (fun w => decide (w ≠ "")))

/-- Modelled from the spec (section 3): a candidate's normalized-text
fingerprint, used for in-response deduplication. -/
def fingerprint (c : QuestionCandidate) : String :=
  normalizeText c.content

/-- Modelled from the spec (section 4.6): a candidate is rejected when its
question text is shorter than the minimum or its answer is empty. -/
def validCandidate (c : QuestionCandidate) : Bool :=
  decide (minQuestionLength ≤ c.content.length) && decide (c.answer ≠ "")

/-- Modelled from the spec (section 4.6): scan the backend output, accepting
a candidate only while fewer than `limit` have been accepted, it is valid,
and its fingerprint does not match one already accepted in this response. -/
def dedupScan (limit : Nat) (seen : List String) (accCount : Nat) :
    List QuestionCandidate → List QuestionCandidate
  | [] => []
  | c :: cs =>
    if accCount < limit ∧ validCandidate c = true ∧ fingerprint c ∉ seen then
      c :: dedupScan limit (fingerprint c :: seen) (accCount + 1) cs
    else dedupScan limit seen accCount cs

/-- Modelled from the spec (section 4.7): one per-cell shortfall entry of the
assembler's summary. -/
structure CellShortfall where
  taxonomyLevel : TaxonomyLevel
  difficultyLevel : Difficulty
  missing : Nat
deriving DecidableEq, Repr

/-- Modelled from the spec (sections 4.7 and 6): the summary returned with
every response — requested vs delivered count and the per-cell shortfall
list. -/
structure GenerateSummary where
  requested : Nat
  delivered : Nat
  shortfalls : List CellShortfall
deriving DecidableEq, Repr

/-- Modelled from the spec (section 6): the exposed result of `generate` —
the question candidates plus the summary. -/
structure GenerateResponse where
  questions : List QuestionCandidate
  summary : GenerateSummary
deriving DecidableEq, Repr

/-- How many accepted questions fall in one plan item's cell. -/
def cellDelivered (qs : List QuestionCandidate) (it : GenerationPlanItem) : Nat :=
  (qs.filter (fun c =>
    decide (c.taxonomyLevel = it.taxonomyLevel) &&
    decide (c.difficultyLevel = it.difficultyLevel))).length

/-- Modelled from the spec (section 4.7): merge the surviving candidates and
report requested vs delivered plus a per-cell shortfall list for every plan
item that under-delivered. -/
def assembleResponse (total : Nat) (plan : List GenerationPlanItem)
    (accepted : List QuestionCandidate) : GenerateResponse :=
  { questions := accepted,
    summary :=
      { requested := total, delivered := accepted.length,
        shortfalls := plan.filterMap (fun it =>
          if cellDelivered accepted it < it.count then
            some ⟨it.taxonomyLevel, it.difficultyLevel,
                  it.count - cellDelivered accepted it⟩
          else none) } }

/-- Modelled from the spec (sections 6 and 7): request validation failing
fast with `InvalidRequestError` on an empty taxonomy set, an empty
difficulty set, or a non-positive count. -/
def validateRequest (req : GenerationRequest) : Option GenError :=
  if req.taxonomyLevels = [] then some .invalidRequestError
  else if req.difficultyLevels = [] then some .invalidRequestError
  else if req.numQuestions ≤ 0 then some .invalidRequestError
  else none

/-- Modelled from the spec (sections 2 and 4): the full Local-backend
pipeline — validate, normalize into chunks, plan, fan out per plan item on
the Local-Rule backend, deduplicate and validate, assemble. -/
def generateLocal (req : GenerationRequest) : Except GenError GenerateResponse :=
  match validateRequest req with
  | some e => .error e
  | none =>
    match chunkContent req.content with
    | .error e => .error e
    | .ok chunks =>
      let total := req.numQuestions.toNat
      let plan := buildPlan req.taxonomyLevels req.difficultyLevels total
      let raw := plan.flatMap (fun it =>
        localGenerateCell chunks it.taxonomyLevel it.difficultyLevel it.count)
      .ok (assembleResponse total plan (dedupScan total [] 0 raw))

/-- Modelled from the spec (section 4.4): the Remote backend's first call
uses the standard structured prompt; the single retry uses the stricter
"return only valid structured output" instruction. -/
inductive PromptMode where
  | standard
  | strict
deriving DecidableEq, Repr

/-- Modelled from the spec (section 4.4): the remote model's reply to one
call — either a parsed candidate list or a malformed response. -/
inductive AttemptResult where
  | parsed (cands : List QuestionCandidate)
  | malformed
deriving DecidableEq, Repr

/-- Modelled from the spec (section 4.4): the Remote-Model backend.  On a
malformed response it retries exactly once with the stricter instruction; on
a second failure it raises `GenerationBackendError` — it performs no Local
fallback itself. -/
def remoteGenerate (respond : PromptMode → AttemptResult) :
    Except GenError (List QuestionCandidate) :=
  match respond .standard with
  | .parsed cs => .ok cs
  | .malformed =>
    match respond .strict with
    | .parsed cs => .ok cs
    | .malformed => .error .generationBackendError

/-- Number of remote calls `remoteGenerate` issues for one cell. -/
def remoteAttempts (respond : PromptMode → AttemptResult) : Nat :=
  match respond .standard with
  | .parsed _ => 1
  | .malformed => 2

/-- Modelled from the spec (section 4.4): parsing one cell's structured
response.  The backend contract passes the cell's taxonomy level and
difficulty level into the call (`generate(chunks, concepts, taxonomy level,
difficulty level, count)`), and the prompt names that level's verb set and
difficulty cue, so every candidate parsed from the reply belongs to the
requested cell: it is tagged with the cell's levels and remote
provenance. -/
def tagForCell (it : GenerationPlanItem) (c : QuestionCandidate) :
    QuestionCandidate :=
  { c with taxonomyLevel := it.taxonomyLevel,
           difficultyLevel := it.difficultyLevel,
           provenance := .remote }

/-- Modelled from the spec (sections 2, 4.4 and 4.6): the Remote-backend
pipeline — validate, normalize, plan, then fan out one retried remote call
per plan item.  The oracle is one deterministic model behaviour for this
request, so every cell's call sees the same reply; each cell parses that
reply into candidates tagged with its own levels, and the merged output is
deduplicated and assembled under the same count limit. -/
def generateRemote (req : GenerationRequest)
    (respond : PromptMode → AttemptResult) : Except GenError GenerateResponse :=
  match validateRequest req with
  | some e => .error e
  | none =>
    match chunkContent req.content with
    | .error e => .error e
    | .ok _ =>
      let total := req.numQuestions.toNat
      let plan := buildPlan req.taxonomyLevels req.difficultyLevels total
      match remoteGenerate respond with
      | .error e => .error e
      | .ok cs =>
        let raw := plan.flatMap (fun it => cs.map (tagForCell it))
        .ok (assembleResponse total plan (dedupScan total [] 0 raw))

/-- Modelled from the spec (sections 4.4 and 9): the process environment an
invocation runs in.  Only the Remote backend touches it: the remote model's
replies may differ from call to call (indexed by `callIndex`); the Local
backend neither reads nor writes it. -/
structure EngineEnv where
  remoteRespond : Nat → PromptMode → AttemptResult
  callIndex : Nat

/-- Modelled from the spec (sections 6 and 9): the exposed `generate`
operation, dispatching on the request's backend selector and threading the
environment. -/
def generateWithEnv (req : GenerationRequest) (env : EngineEnv) :
    Except GenError GenerateResponse × EngineEnv :=
  if req.useOpenai then
    (generateRemote req (env.remoteRespond env.callIndex),
     { env with callIndex := env.callIndex + 1 })
  else
    (generateLocal req, env)

deriving instance DecidableEq for Except

/-! ## Concrete values used by the witnesses -/

/-- A small valid request for the Local backend. -/
def reqW : GenerationRequest :=
  { subjectId := 1, topicId := none, content := "Stacks hold data.",
    taxonomyLevels := [.remember], difficultyLevels := [.easy],
    numQuestions := 1, useOpenai := false }

/-- The same request asking for five questions, more than the content's
three distinct concepts can fill. -/
def reqW5 : GenerationRequest :=
  { reqW with numQuestions := 5 }

/-- The candidate the Local backend produces first on `reqW`. -/
def candW : QuestionCandidate :=
  { content := "What is stacks?", answer := "Stacks hold data",
    explanation := none, taxonomyLevel := .remember, difficultyLevel := .easy,
    provenance := .localRule }

/-- The full response to `reqW`. -/
def respW : GenerateResponse :=
  { questions := [candW],
    summary := { requested := 1, delivered := 1, shortfalls := [] } }

/-- The response to `reqW5`: three deliverable questions, shortfall two. -/
def respW5 : GenerateResponse :=
  { questions :=
      [candW,
       { candW with content := "What is hold?" },
       { candW with content := "What is data?" }],
    summary := { requested := 5, delivered := 3,
                 shortfalls := [⟨.remember, .easy, 2⟩] } }

/-- An environment whose remote model always replies malformed. -/
def envW : EngineEnv :=
  { remoteRespond := fun _ _ => .malformed, callIndex := 0 }

/-- A second, different environment: the remote model always parses to an
empty list and the call counter starts elsewhere. -/
def envW2 : EngineEnv :=
  { remoteRespond := fun _ _ => .parsed [], callIndex := 5 }

/-- The request `reqW` with the remote backend selected. -/
def reqWRemote : GenerationRequest :=
  { reqW with useOpenai := true }

/-- An environment whose remote model always returns one well-formed
reply. -/
def envWParsed : EngineEnv :=
  { remoteRespond := fun _ _ => .parsed [candW], callIndex := 0 }

/-- The response to `reqWRemote` under `envWParsed`: the parsed candidate,
tagged for the single plan cell and with remote provenance. -/
def respWRemote : GenerateResponse :=
  { questions := [{ candW with provenance := .remote }],
    summary := { requested := 1, delivered := 1, shortfalls := [] } }

/-- A remote oracle that fails both the standard and the strict attempt. -/
def respondMalformed : PromptMode → AttemptResult :=
  fun _ => .malformed

/-- A remote oracle that fails the standard attempt and succeeds on the
strict retry. -/
def respondRetryOk : PromptMode → AttemptResult :=
  fun m => match m with
  | .standard => .malformed
  | .strict => .parsed [candW]

/-- A PDF file as the browser reports it. -/
def filePdf : JsFile :=
  { name := "notes.pdf", size := 2048, mimeType := "application/pdf" }

/-- A non-PDF file as the browser reports it. -/
def fileTxt : JsFile :=
  { name := "notes.txt", size := 100, mimeType := "text/plain" }

/-- An empty file-selection state of the generator page. -/
def emptyGenFileState : GenPageFileState :=
  { pdfFile := none, error := none, inputValue := none }

/-- A text form whose context is below ten characters after trimming. -/
def fdShort : GenFormData :=
  { subject_id := "1", topic_id := "", context := "  too short  ",
    taxonomy_levels := ["remember"], difficulty_levels := ["easy"],
    num_questions := 5, use_openai := true }

/-- A text form with no taxonomy level selected. -/
def fdNoTaxonomy : GenFormData :=
  { subject_id := "1", topic_id := "",
    context := "Stacks support push and pop operations.",
    taxonomy_levels := [], difficulty_levels := ["easy"],
    num_questions := 5, use_openai := true }

/-- A request with an empty taxonomy set. -/
def reqNoTaxonomy : GenerationRequest :=
  { reqW with taxonomyLevels := [] }

/-- A request whose content is below ten characters after trimming. -/
def reqShort : GenerationRequest :=
  { reqW with content := " tiny. " }

/-- The invariant the file-change handlers maintain: the held file, when
present, is a PDF. -/
def pdfFileIsPdf (pf : Option JsFile) : Prop :=
  ∀ f, pf = some f → f.mimeType = "application/pdf"

/-- A generator-page state holding a selected PDF. -/
def stPdfW : GenPageFileState :=
  { pdfFile := some filePdf, error := none, inputValue := some filePdf }

/-- The request `handleSubmit` sends for `fdShort` with `stPdfW` on the PDF
tab. -/
def reqPdfW : PdfGenerateRequest :=
  { file := filePdf, subject_id := "1", topic_id := "",
    taxonomy_levels := ["remember"], difficulty_levels := ["easy"],
    num_questions := 5, use_openai := true }

/-! ## Supporting lemmas -/

theorem mem_canonicalTaxonomy (t : TaxonomyLevel) : t ∈ canonicalTaxonomy := by
  cases t <;> simp [canonicalTaxonomy]

theorem mem_canonicalDifficulty (d : Difficulty) : d ∈ canonicalDifficulty := by
  cases d <;> simp [canonicalDifficulty]

theorem planCells_ne_nil (tax : List TaxonomyLevel) (diff : List Difficulty)
    (ht : tax ≠ []) (hd : diff ≠ []) : planCells tax diff ≠ [] := by
  obtain ⟨t, htm⟩ := List.exists_mem_of_ne_nil tax ht
  obtain ⟨d, hdm⟩ := List.exists_mem_of_ne_nil diff hd
  apply List.ne_nil_of_mem (a := (t, d))
  unfold planCells
  rw [List.mem_flatMap]
  refine ⟨t, ?_, List.mem_map.mpr ⟨d, ?_, rfl⟩⟩
  · rw [List.mem_filter]
    exact ⟨mem_canonicalTaxonomy t, by simpa using htm⟩
  · rw [List.mem_filter]
    exact ⟨mem_canonicalDifficulty d, by simpa using hdm⟩

theorem distributeCounts_sum (base : Nat) :
    ∀ (cells : List (TaxonomyLevel × Difficulty)) (rem : Nat),
      ((distributeCounts base rem cells).map GenerationPlanItem.count).sum
        = base * cells.length + min rem cells.length := by
  intro cells
  induction cells with
  | nil => intro rem; simp [distributeCounts]
  | cons c cs ih =>
    intro rem
    by_cases h : rem = 0
    · subst h
      simp [distributeCounts, ih, Nat.mul_succ]
      ring
    · obtain ⟨r, rfl⟩ : ∃ r, rem = r + 1 := ⟨rem - 1, by omega⟩
      simp only [distributeCounts, if_neg h, List.map_cons, List.sum_cons,
        Nat.add_sub_cancel, ih, List.length_cons, Nat.succ_min_succ,
        Nat.mul_succ, Nat.succ_eq_add_one]
      ring

theorem sum_counts_filter (l : List GenerationPlanItem) :
    ((l.filter (fun it => decide (it.count ≠ 0))).map GenerationPlanItem.count).sum
      = (l.map GenerationPlanItem.count).sum := by
  simp only [ne_eq, decide_not]
  induction l with
  | nil => rfl
  | cons a l ih =>
    by_cases h : a.count = 0
    · simp [List.filter_cons, h, ih]
    · simp [List.filter_cons, h, ih]

theorem buildPlan_sum (tax : List TaxonomyLevel) (diff : List Difficulty)
    (total : Nat) (ht : tax ≠ []) (hd : diff ≠ []) :
    ((buildPlan tax diff total).map GenerationPlanItem.count).sum = total := by
  have hn : 0 < (planCells tax diff).length :=
    List.length_pos.mpr (planCells_ne_nil tax diff ht hd)
  have hmod := Nat.mod_lt total hn
  have hdiv := Nat.div_add_mod total (planCells tax diff).length
  simp only [buildPlan]
  rw [sum_counts_filter, distributeCounts_sum,
    Nat.min_eq_left (Nat.le_of_lt hmod)]
  rw [Nat.mul_comm] at hdiv
  exact hdiv

theorem mem_distributeCounts (base : Nat) :
    ∀ (cells : List (TaxonomyLevel × Difficulty)) (rem : Nat)
      (it : GenerationPlanItem), it ∈ distributeCounts base rem cells →
      (it.taxonomyLevel, it.difficultyLevel) ∈ cells := by
  intro cells
  induction cells with
  | nil => intro rem it h; simp [distributeCounts] at h
  | cons c cs ih =>
    intro rem it h
    by_cases hr : rem = 0
    · subst hr
      rcases List.mem_cons.mp (by simpa [distributeCounts] using h) with h1 | h1
      · subst h1; exact List.mem_cons_self _ _
      · exact List.mem_cons_of_mem _ (ih 0 it h1)
    · rcases List.mem_cons.mp (by simpa [distributeCounts, hr] using h) with h1 | h1
      · subst h1; exact List.mem_cons_self _ _
      · exact List.mem_cons_of_mem _ (ih (rem - 1) it h1)

theorem mem_planCells (tax : List TaxonomyLevel) (diff : List Difficulty)
    (t : TaxonomyLevel) (d : Difficulty) (h : (t, d) ∈ planCells tax diff) :
    t ∈ tax ∧ d ∈ diff := by
  unfold planCells at h
  rw [List.mem_flatMap] at h
  obtain ⟨t2, ht2, hmap⟩ := h
  rw [List.mem_map] at hmap
  obtain ⟨d2, hd2, heq⟩ := hmap
  obtain ⟨rfl, rfl⟩ := Prod.mk.injEq .. |>.mp heq
  rw [List.mem_filter] at ht2 hd2
  exact ⟨of_decide_eq_true ht2.2, of_decide_eq_true hd2.2⟩

theorem mem_buildPlan (tax : List TaxonomyLevel) (diff : List Difficulty)
    (total : Nat) (it : GenerationPlanItem) (h : it ∈ buildPlan tax diff total) :
    it.taxonomyLevel ∈ tax ∧ it.difficultyLevel ∈ diff ∧ it.count ≠ 0 := by
  simp only [buildPlan] at h
  rw [List.mem_filter] at h
  have hmem := mem_distributeCounts _ _ _ _ h.1
  have hlv := mem_planCells _ _ _ _ hmem
  exact ⟨hlv.1, hlv.2, of_decide_eq_true h.2⟩

/-! ## Claim theorems -/

/-- C1: for every valid request the Planner builds the canonical
cross-product of the requested levels, assigns `total / cells` to every cell
plus one extra to the first `total % cells` cells, drops zero-count cells,
and the plan counts sum exactly to the requested total; one taxonomy level,
one difficulty level and count 1 yield exactly one plan item of count 1. -/
theorem planner_exact_sum (tax : List TaxonomyLevel) (diff : List Difficulty)
    (total : Nat) (ht : tax ≠ []) (hd : diff ≠ []) :
    ((buildPlan tax diff total).map GenerationPlanItem.count).sum = total ∧
    (∀ it ∈ buildPlan tax diff total, it.count ≠ 0) ∧
    (∀ (t : TaxonomyLevel) (d : Difficulty), buildPlan [t] [d] 1 = [⟨t, d, 1⟩]) := by
  refine ⟨buildPlan_sum tax diff total ht hd, ?_, ?_⟩
  · intro it hit
    exact (mem_buildPlan tax diff total it hit).2.2
  · intro t d
    cases t <;> cases d <;> rfl

/-- C1 witness: two taxonomy levels and three difficulties with seven
requested questions give a plan summing to seven with no zero cells, and
the 1 by 1 by 1 boundary plan is a single item of count 1. -/
theorem planner_exact_sum_witness :
    ((buildPlan [.remember, .create] [.easy, .medium, .hard] 7).map
        GenerationPlanItem.count).sum = 7 ∧
    (∀ it ∈ buildPlan [.remember, .create] [.easy, .medium, .hard] 7,
        it.count ≠ 0) ∧
    (∀ (t : TaxonomyLevel) (d : Difficulty), buildPlan [t] [d] 1 = [⟨t, d, 1⟩]) :=
  planner_exact_sum [.remember, .create] [.easy, .medium, .hard] 7
    (by decide) (by decide)

theorem dedupScan_length_le (limit : Nat) :
    ∀ (l : List QuestionCandidate) (seen : List String) (acc : Nat),
      (dedupScan limit seen acc l).length ≤ limit - acc := by
  intro l
  induction l with
  | nil => intro seen acc; simp [dedupScan]
  | cons c cs ih =>
    intro seen acc
    by_cases h : acc < limit ∧ validCandidate c = true ∧ fingerprint c ∉ seen
    · simp only [dedupScan, if_pos h, List.length_cons]
      have := ih (fingerprint c :: seen) (acc + 1)
      omega
    · simp only [dedupScan, if_neg h]
      exact ih seen acc

theorem dedupScan_fingerprints (limit : Nat) :
    ∀ (l : List QuestionCandidate) (seen : List String) (acc : Nat),
      ((dedupScan limit seen acc l).map fingerprint).Nodup ∧
      ∀ s ∈ (dedupScan limit seen acc l).map fingerprint, s ∉ seen := by
  intro l
  induction l with
  | nil => intro seen acc; simp [dedupScan]
  | cons c cs ih =>
    intro seen acc
    by_cases h : acc < limit ∧ validCandidate c = true ∧ fingerprint c ∉ seen
    · simp only [dedupScan, if_pos h, List.map_cons]
      obtain ⟨ihn, ihs⟩ := ih (fingerprint c :: seen) (acc + 1)
      constructor
      · rw [List.nodup_cons]
        exact ⟨fun hmem => (ihs _ hmem) (List.mem_cons_self _ _), ihn⟩
      · intro s hs
        rcases List.mem_cons.mp hs with rfl | hs2
        · exact h.2.2
        · exact fun hseen => (ihs s hs2) (List.mem_cons_of_mem _ hseen)
    · simp only [dedupScan, if_neg h]
      exact ih seen acc

theorem dedupScan_subset (limit : Nat) :
    ∀ (l : List QuestionCandidate) (seen : List String) (acc : Nat),
      dedupScan limit seen acc l ⊆ l := by
  intro l
  induction l with
  | nil => intro seen acc; simp [dedupScan]
  | cons c cs ih =>
    intro seen acc
    by_cases h : acc < limit ∧ validCandidate c = true ∧ fingerprint c ∉ seen
    · simp only [dedupScan, if_pos h]
      intro x hx
      rcases List.mem_cons.mp hx with rfl | hx2
      · exact List.mem_cons_self _ _
      · exact List.mem_cons_of_mem _ (ih _ _ hx2)
    · simp only [dedupScan, if_neg h]
      exact fun x hx => List.mem_cons_of_mem _ (ih seen acc hx)

theorem generateWithEnv_ok_shape (req : GenerationRequest) (env : EngineEnv)
    (resp : GenerateResponse) (h : (generateWithEnv req env).1 = .ok resp) :
    ∃ (plan : List GenerationPlanItem) (cands : List QuestionCandidate),
      resp = assembleResponse req.numQuestions.toNat plan
        (dedupScan req.numQuestions.toNat [] 0 cands) := by
  unfold generateWithEnv at h
  split at h <;> dsimp only at h
  · simp only [generateRemote] at h
    split at h
    · simp at h
    · split at h
      · simp at h
      · split at h
        · simp at h
        · rw [Except.ok.injEq] at h
          exact ⟨_, _, h.symm⟩
  · simp only [generateLocal] at h
    split at h
    · simp at h
    · split at h
      · simp at h
      · rw [Except.ok.injEq] at h
        exact ⟨_, _, h.symm⟩

/-- C2: every generated response delivers at most the requested number of
questions, and no two delivered questions share a normalized-text
fingerprint. -/
theorem response_count_and_nodup (req : GenerationRequest) (env : EngineEnv)
    (resp : GenerateResponse) (h : (generateWithEnv req env).1 = .ok resp) :
    resp.questions.length ≤ resp.summary.requested ∧
    (resp.questions.map fingerprint).Nodup := by
  obtain ⟨plan, cands, rfl⟩ := generateWithEnv_ok_shape req env resp h
  constructor
  · have hle := dedupScan_length_le req.numQuestions.toNat cands [] 0
    simpa [assembleResponse] using hle
  · have hnd := (dedupScan_fingerprints req.numQuestions.toNat cands [] 0).1
    simpa [assembleResponse] using hnd

/-- C2 witness: the concrete run of `reqW` delivers one question, within the
requested count and with pairwise-distinct fingerprints. -/
theorem response_count_and_nodup_witness :
    respW.questions.length ≤ respW.summary.requested ∧
    (respW.questions.map fingerprint).Nodup :=
  response_count_and_nodup reqW envW respW (by decide)

theorem validateRequest_none (req : GenerationRequest)
    (ht : req.taxonomyLevels ≠ []) (hd : req.difficultyLevels ≠ [])
    (hn : 0 < req.numQuestions) : validateRequest req = none := by
  unfold validateRequest
  rw [if_neg ht, if_neg hd, if_neg (by omega)]

theorem generateLocal_eq (req : GenerationRequest)
    (hval : validateRequest req = none)
    (hc : minContentLength ≤ (jsTrim req.content).length) :
    generateLocal req = .ok (assembleResponse req.numQuestions.toNat
      (buildPlan req.taxonomyLevels req.difficultyLevels req.numQuestions.toNat)
      (dedupScan req.numQuestions.toNat [] 0
        ((buildPlan req.taxonomyLevels req.difficultyLevels
            req.numQuestions.toNat).flatMap
          (fun it => localGenerateCell (mkChunks req.content) it.taxonomyLevel
            it.difficultyLevel it.count)))) := by
  unfold generateLocal chunkContent
  rw [hval, if_neg (by omega)]

/-- C3: for every valid request on the Local backend, `generate` returns a
response carrying both the questions list and a summary with the requested
count, the delivered count and the per-cell shortfalls; when distinct
concepts run out it returns fewer questions than requested without an
error, and every under-delivered plan cell is reported in the summary. -/
theorem generate_summary_contract (req : GenerationRequest) (env : EngineEnv)
    (ht : req.taxonomyLevels ≠ []) (hd : req.difficultyLevels ≠ [])
    (hn : 0 < req.numQuestions)
    (hc : minContentLength ≤ (jsTrim req.content).length)
    (hb : req.useOpenai = false) :
    ∃ resp, (generateWithEnv req env).1 = .ok resp ∧
      resp.summary.requested = req.numQuestions.toNat ∧
      resp.summary.delivered = resp.questions.length ∧
      resp.questions.length ≤ req.numQuestions.toNat ∧
      ∀ it ∈ buildPlan req.taxonomyLevels req.difficultyLevels
          req.numQuestions.toNat,
        cellDelivered resp.questions it < it.count →
        (⟨it.taxonomyLevel, it.difficultyLevel,
          it.count - cellDelivered resp.questions it⟩ : CellShortfall) ∈
            resp.summary.shortfalls := by
  have hval := validateRequest_none req ht hd hn
  have hloc := generateLocal_eq req hval hc
  have henv : (generateWithEnv req env).1 = generateLocal req := by
    simp [generateWithEnv, hb]
  refine ⟨_, henv.trans hloc, rfl, rfl, ?_, ?_⟩
  · simpa [assembleResponse] using
      dedupScan_length_le req.numQuestions.toNat _ [] 0
  · intro it hit hlt
    refine List.mem_filterMap.mpr ⟨it, hit, ?_⟩
    simp only [assembleResponse] at hlt
    rw [if_pos hlt]
    rfl

/-- C3 witness: the concrete request `reqW5` asks for five questions but
only three distinct concepts exist; generation succeeds, delivers three,
and reports the missing two in the summary shortfall list. -/
theorem generate_summary_contract_witness :
    (∃ resp, (generateWithEnv reqW5 envW).1 = .ok resp ∧
      resp.summary.requested = reqW5.numQuestions.toNat ∧
      resp.summary.delivered = resp.questions.length ∧
      resp.questions.length ≤ reqW5.numQuestions.toNat ∧
      ∀ it ∈ buildPlan reqW5.taxonomyLevels reqW5.difficultyLevels
          reqW5.numQuestions.toNat,
        cellDelivered resp.questions it < it.count →
        (⟨it.taxonomyLevel, it.difficultyLevel,
          it.count - cellDelivered resp.questions it⟩ : CellShortfall) ∈
            resp.summary.shortfalls) ∧
    (generateWithEnv reqW5 envW).1 = .ok respW5 ∧
    respW5.summary.delivered = 3 ∧ respW5.summary.requested = 5 ∧
    respW5.summary.shortfalls ≠ [] :=
  ⟨generate_summary_contract reqW5 envW (by decide) (by decide) (by decide)
      (by decide) rfl,
   by decide, by decide, by decide, by decide⟩

theorem distinctByContent_subset :
    ∀ (l : List QuestionCandidate) (seen : List String),
      distinctByContent l seen ⊆ l := by
  intro l
  induction l with
  | nil => intro seen; simp [distinctByContent]
  | cons c cs ih =>
    intro seen
    by_cases h : c.content ∈ seen
    · simp only [distinctByContent, if_pos h]
      exact fun x hx => List.mem_cons_of_mem _ (ih seen hx)
    · simp only [distinctByContent, if_neg h]
      intro x hx
      rcases List.mem_cons.mp hx with rfl | hx2
      · exact List.mem_cons_self _ _
      · exact List.mem_cons_of_mem _ (ih _ hx2)

theorem mem_localGenerateCell (chunks : List ContentChunk) (t : TaxonomyLevel)
    (d : Difficulty) (k : Nat) (c : QuestionCandidate)
    (h : c ∈ localGenerateCell chunks t d k) :
    c.taxonomyLevel = t ∧ c.difficultyLevel = d := by
  unfold localGenerateCell at h
  have h2 := List.take_subset _ _ h
  have h3 := distinctByContent_subset _ _ h2
  rw [List.mem_map] at h3
  obtain ⟨p, hp, rfl⟩ := h3
  exact ⟨rfl, rfl⟩

theorem generateLocal_ok_levels (req : GenerationRequest)
    (resp : GenerateResponse) (h : generateLocal req = .ok resp) :
    ∀ c ∈ resp.questions,
      c.taxonomyLevel ∈ req.taxonomyLevels ∧
      c.difficultyLevel ∈ req.difficultyLevels := by
  simp only [generateLocal] at h
  split at h
  · simp at h
  · split at h
    · simp at h
    · rw [Except.ok.injEq] at h
      intro c hc
      rw [← h] at hc
      simp only [assembleResponse] at hc
      have h1 := dedupScan_subset _ _ _ _ hc
      rw [List.mem_flatMap] at h1
      obtain ⟨it, hit, hcell⟩ := h1
      obtain ⟨hteq, hdeq⟩ := mem_localGenerateCell _ _ _ _ _ hcell
      have hlv := mem_buildPlan _ _ _ _ hit
      rw [hteq, hdeq]
      exact ⟨hlv.1, hlv.2.1⟩

theorem generateRemote_ok_levels (req : GenerationRequest)
    (respond : PromptMode → AttemptResult) (resp : GenerateResponse)
    (h : generateRemote req respond = .ok resp) :
    ∀ c ∈ resp.questions,
      c.taxonomyLevel ∈ req.taxonomyLevels ∧
      c.difficultyLevel ∈ req.difficultyLevels := by
  simp only [generateRemote] at h
  split at h
  · simp at h
  · split at h
    · simp at h
    · split at h
      · simp at h
      · rw [Except.ok.injEq] at h
        intro c hc
        rw [← h] at hc
        simp only [assembleResponse] at hc
        have h1 := dedupScan_subset _ _ _ _ hc
        rw [List.mem_flatMap] at h1
        obtain ⟨it, hit, hcell⟩ := h1
        rw [List.mem_map] at hcell
        obtain ⟨c0, _, rfl⟩ := hcell
        have hlv := mem_buildPlan _ _ _ _ hit
        exact ⟨hlv.1, hlv.2.1⟩

theorem generateWithEnv_ok_levels (req : GenerationRequest) (env : EngineEnv)
    (resp : GenerateResponse) (h : (generateWithEnv req env).1 = .ok resp) :
    ∀ c ∈ resp.questions,
      c.taxonomyLevel ∈ req.taxonomyLevels ∧
      c.difficultyLevel ∈ req.difficultyLevels := by
  unfold generateWithEnv at h
  split at h <;> dsimp only at h
  · exact generateRemote_ok_levels req _ resp h
  · exact generateLocal_ok_levels req resp h

/-- C4 counterexample: the `PdfQuestionGenerator` component submits
taxonomy levels drawn from the legacy labels; its default request already
contains `KNOWLEDGE`, which is none of the six ordered values
remember..create used everywhere else. -/
theorem pdf_taxonomy_values_not_canonical :
    "KNOWLEDGE" ∈ pdfDefaultTaxonomyLevels ∧
    "KNOWLEDGE" ∈ pdfTaxonomyOptionValues ∧
    "KNOWLEDGE" ∉ taxonomyLevelValues ∧
    pdfTaxonomyOptionValues.inter taxonomyLevelValues = [] := by decide

/-- C4 amended: `QuestionGeneratorPage` requests draw taxonomy levels from
the six ordered values remember..create and difficulties from easy, medium,
hard (its checkbox handler keeps the selected sets inside the offered
option lists), and every question the engine emits — on either backend —
carries one taxonomy level and one difficulty level drawn from the
request's requested sets; `PdfQuestionGenerator` requests instead draw from
the legacy labels KNOWLEDGE..EVALUATION and EASY, MEDIUM, HARD. -/
theorem taxonomy_value_sources :
    taxonomyLevelValues =
      ["remember", "understand", "apply", "analyze", "evaluate", "create"] ∧
    difficultyLevelValues = ["easy", "medium", "hard"] ∧
    pdfTaxonomyOptionValues =
      ["KNOWLEDGE", "COMPREHENSION", "APPLICATION", "ANALYSIS", "SYNTHESIS",
       "EVALUATION"] ∧
    pdfDifficultyOptionValues = ["EASY", "MEDIUM", "HARD"] ∧
    (∀ (checked : Bool) (current : List String) (value : String)
        (opts : List String), current ⊆ opts → value ∈ opts →
        handleCheckboxChange checked current value ⊆ opts) ∧
    (∀ (req : GenerationRequest) (env : EngineEnv) (resp : GenerateResponse),
        (generateWithEnv req env).1 = .ok resp → ∀ c ∈ resp.questions,
        c.taxonomyLevel ∈ req.taxonomyLevels ∧
        c.difficultyLevel ∈ req.difficultyLevels) := by
  refine ⟨rfl, rfl, rfl, rfl, ?_, generateWithEnv_ok_levels⟩
  intro checked current value opts hsub hval
  unfold handleCheckboxChange
  by_cases h : checked
  · rw [if_pos h]
    intro x hx
    rcases List.mem_append.mp hx with hx1 | hx1
    · exact hsub hx1
    · rw [List.mem_singleton] at hx1
      exact hx1 ▸ hval
  · rw [if_neg h]
    exact fun x hx => hsub (List.mem_of_mem_filter hx)

/-- C4 amended witness: checking the `understand` box keeps the selection
inside the six offered values, and the questions delivered for the concrete
Local run `reqW` and the concrete Remote run `reqWRemote` both carry the
requested taxonomy level and difficulty. -/
theorem taxonomy_value_sources_witness :
    handleCheckboxChange true ["remember"] "understand" ⊆ taxonomyLevelValues ∧
    (∀ c ∈ respW.questions,
        c.taxonomyLevel ∈ reqW.taxonomyLevels ∧
        c.difficultyLevel ∈ reqW.difficultyLevels) ∧
    (∀ c ∈ respWRemote.questions,
        c.taxonomyLevel ∈ reqWRemote.taxonomyLevels ∧
        c.difficultyLevel ∈ reqWRemote.difficultyLevels) :=
  ⟨taxonomy_value_sources.2.2.2.2.1 true ["remember"] "understand"
      taxonomyLevelValues
      (by intro a ha; rw [List.mem_singleton] at ha; subst ha; decide)
      (by decide),
   taxonomy_value_sources.2.2.2.2.2 reqW envW respW (by decide),
   taxonomy_value_sources.2.2.2.2.2 reqWRemote envWParsed respWRemote
     (by decide)⟩

/-- C5: a text-mode input whose trimmed content is below ten characters
never passes validation and never reaches the backend (zero plan items on
the client side), with the content-length error reported once the subject
is chosen; the engine itself fails such content with `EmptyContentError`. -/
theorem short_content_rejected :
    (∀ fd : GenFormData, (jsTrim fd.context).length < minContentLength →
        validateTextForm fd ≠ none ∧ submitTextRequest fd = none ∧
        (fd.subject_id ≠ "" → validateTextForm fd =
            some "Please provide a context with at least 10 characters")) ∧
    (∀ req : GenerationRequest,
        (jsTrim req.content).length < minContentLength →
        req.taxonomyLevels ≠ [] → req.difficultyLevels ≠ [] →
        0 < req.numQuestions →
        generateLocal req = .error .emptyContentError) := by
  constructor
  · intro fd hshort
    have hshort10 : (jsTrim fd.context).length < 10 := hshort
    by_cases hs : fd.subject_id = ""
    · refine ⟨?_, ?_, fun hns => absurd hs hns⟩
      · simp [validateTextForm, hs]
      · simp [submitTextRequest, validateTextForm, hs]
    · have hv : validateTextForm fd =
          some "Please provide a context with at least 10 characters" := by
        simp [validateTextForm, hs, hshort10]
      exact ⟨by simp [hv], by unfold submitTextRequest; rw [hv]; rfl,
        fun _ => hv⟩
  · intro req hshort ht hd hn
    have hval := validateRequest_none req ht hd hn
    simp [generateLocal, hval, chunkContent, hshort]

/-- C5 witness: `fdShort` (context of trimmed length nine) is rejected with
the content-length message and no request is submitted; the engine rejects
the analogous short request with `EmptyContentError`. -/
theorem short_content_rejected_witness :
    validateTextForm fdShort ≠ none ∧ submitTextRequest fdShort = none ∧
    validateTextForm fdShort =
      some "Please provide a context with at least 10 characters" ∧
    generateLocal reqShort = .error .emptyContentError :=
  ⟨(short_content_rejected.1 fdShort (by decide)).1,
   (short_content_rejected.1 fdShort (by decide)).2.1,
   (short_content_rejected.1 fdShort (by decide)).2.2 (by decide),
   short_content_rejected.2 reqShort (by decide) (by decide) (by decide)
     (by decide)⟩

/-- C6: a request with an empty taxonomy set, an empty difficulty set, or a
non-positive count fails fast with `InvalidRequestError` on either backend;
the text form likewise rejects empty level sets before submitting; and the
question-count inputs of both pages are bounded to 1..20. -/
theorem invalid_request_fails :
    (∀ req : GenerationRequest,
        req.taxonomyLevels = [] ∨ req.difficultyLevels = [] ∨
          req.numQuestions ≤ 0 →
        validateRequest req = some .invalidRequestError ∧
        generateLocal req = .error .invalidRequestError ∧
        ∀ env : EngineEnv,
          (generateWithEnv req env).1 = .error .invalidRequestError) ∧
    (∀ fd : GenFormData,
        fd.taxonomy_levels = [] ∨ fd.difficulty_levels = [] →
        validateTextForm fd ≠ none ∧ submitTextRequest fd = none) ∧
    numQuestionsInputMin = 1 ∧ numQuestionsInputMax = 20 ∧
    pdfNumQuestionsMin = 1 ∧ pdfNumQuestionsMax = 20 := by
  refine ⟨?_, ?_, rfl, rfl, rfl, rfl⟩
  · intro req hbad
    have hval : validateRequest req = some .invalidRequestError := by
      unfold validateRequest
      rcases hbad with h | h | h
      · rw [if_pos h]
      · by_cases h1 : req.taxonomyLevels = []
        · rw [if_pos h1]
        · rw [if_neg h1, if_pos h]
      · by_cases h1 : req.taxonomyLevels = []
        · rw [if_pos h1]
        · by_cases h2 : req.difficultyLevels = []
          · rw [if_neg h1, if_pos h2]
          · rw [if_neg h1, if_neg h2, if_pos h]
    refine ⟨hval, by simp [generateLocal, hval], ?_⟩
    intro env
    by_cases hb : req.useOpenai
    · simp [generateWithEnv, hb, generateRemote, hval]
    · simp [generateWithEnv, hb, generateLocal, hval]
  · intro fd hbad
    have hv : validateTextForm fd ≠ none := by
      unfold validateTextForm
      split_ifs with h1 h2 h3 h4
      · simp
      · simp
      · simp
      · simp
      · rcases hbad with h | h
        · exact absurd h h3
        · exact absurd h h4
    exact ⟨hv, by unfold submitTextRequest; rw [if_neg hv]⟩

/-- C6 witness: the concrete request and form with an empty taxonomy
selection are both rejected. -/
theorem invalid_request_fails_witness :
    validateRequest reqNoTaxonomy = some .invalidRequestError ∧
    generateLocal reqNoTaxonomy = .error .invalidRequestError ∧
    validateTextForm fdNoTaxonomy ≠ none ∧
    submitTextRequest fdNoTaxonomy = none :=
  ⟨(invalid_request_fails.1 reqNoTaxonomy (Or.inl rfl)).1,
   (invalid_request_fails.1 reqNoTaxonomy (Or.inl rfl)).2.1,
   (invalid_request_fails.2.1 fdNoTaxonomy (Or.inl rfl)).1,
   (invalid_request_fails.2.1 fdNoTaxonomy (Or.inl rfl)).2⟩

/-- C7: the Remote backend issues at most two calls; when both the standard
attempt and the strict retry are malformed it raises
`GenerationBackendError`; and any successful output comes verbatim from one
of the two remote replies — it never substitutes Local-backend output. -/
theorem remote_retry_policy (respond : PromptMode → AttemptResult) :
    remoteAttempts respond ≤ 2 ∧
    (respond .standard = .malformed → respond .strict = .malformed →
        remoteGenerate respond = .error .generationBackendError) ∧
    (∀ cs, remoteGenerate respond = .ok cs →
        respond .standard = .parsed cs ∨
          (respond .standard = .malformed ∧ respond .strict = .parsed cs)) := by
  refine ⟨?_, ?_, ?_⟩
  · unfold remoteAttempts
    split <;> omega
  · intro h1 h2
    unfold remoteGenerate
    rw [h1, h2]
  · intro cs h
    cases hstd : respond .standard with
    | parsed cs2 =>
      simp only [remoteGenerate, hstd] at h
      rw [Except.ok.injEq] at h
      subst h
      left
      rfl
    | malformed =>
      cases hstr : respond .strict with
      | parsed cs2 =>
        simp only [remoteGenerate, hstd, hstr] at h
        rw [Except.ok.injEq] at h
        subst h
        right
        exact ⟨rfl, rfl⟩
      | malformed =>
        simp [remoteGenerate, hstd, hstr] at h

/-- C7 witness: the always-malformed oracle exhausts the single retry and
raises `GenerationBackendError`; the oracle succeeding on the strict retry
delivers that reply's candidates. -/
theorem remote_retry_policy_witness :
    remoteGenerate respondMalformed = .error .generationBackendError ∧
    remoteAttempts respondMalformed ≤ 2 ∧
    remoteGenerate respondRetryOk = .ok [candW] :=
  ⟨(remote_retry_policy respondMalformed).2.1 rfl rfl,
   (remote_retry_policy respondMalformed).1,
   rfl⟩

/-- C8: with the Local backend selected, the generated result is the same
function of the request whatever the environment holds, the environment is
left untouched, and a second invocation returns the identical result. -/
theorem local_backend_deterministic (req : GenerationRequest)
    (h : req.useOpenai = false) :
    ∀ env env2 : EngineEnv,
      (generateWithEnv req env).1 = (generateWithEnv req env2).1 ∧
      (generateWithEnv req env).2 = env ∧
      (generateWithEnv req (generateWithEnv req env).2).1 =
        (generateWithEnv req env).1 := by
  intro env env2
  simp [generateWithEnv, h]

/-- C8 witness: the concrete Local request gives the same answer under two
different environments and leaves the environment unchanged. -/
theorem local_backend_deterministic_witness :
    (generateWithEnv reqW envW).1 = (generateWithEnv reqW envW2).1 ∧
    (generateWithEnv reqW envW).2 = envW ∧
    (generateWithEnv reqW (generateWithEnv reqW envW).2).1 =
      (generateWithEnv reqW envW).1 :=
  local_backend_deterministic reqW rfl envW envW2

/-- C9: both file-change handlers keep `pdfFile` equal to `null` or a file
of MIME type application/pdf; a non-PDF selection resets `pdfFile` and
clears the input; and a PDF-tab request is only ever submitted with a PDF
attached. -/
theorem pdf_file_guard :
    (∀ (sel : Option JsFile) (st : GenPageFileState),
        pdfFileIsPdf st.pdfFile →
        pdfFileIsPdf (handleFileChange sel st).pdfFile) ∧
    (∀ (sel : Option JsFile) (st : PdfPageFileState),
        pdfFileIsPdf st.pdfFile →
        pdfFileIsPdf (pdfPageHandleFileChange sel st).pdfFile) ∧
    (∀ (f : JsFile) (st : GenPageFileState),
        f.mimeType ≠ "application/pdf" →
        (handleFileChange (some f) st).pdfFile = none ∧
        (handleFileChange (some f) st).inputValue = none) ∧
    (∀ (f : JsFile) (st : PdfPageFileState),
        f.mimeType ≠ "application/pdf" →
        (pdfPageHandleFileChange (some f) st).pdfFile = none ∧
        (pdfPageHandleFileChange (some f) st).inputValue = none) ∧
    (∀ (fd : GenFormData) (st : GenPageFileState) (req : PdfGenerateRequest),
        pdfFileIsPdf st.pdfFile → submitPdfRequest fd st = some req →
        req.file.mimeType = "application/pdf") := by
  refine ⟨?_, ?_, ?_, ?_, ?_⟩
  · intro sel st hinv g hg
    cases sel with
    | none => exact hinv g (by simpa [handleFileChange] using hg)
    | some f =>
      by_cases h : f.mimeType = "application/pdf"
      · simp only [handleFileChange, if_pos h] at hg
        rw [Option.some.injEq] at hg
        rw [← hg]
        exact h
      · simp only [handleFileChange, if_neg h] at hg
        exact absurd hg (by simp)
  · intro sel st hinv g hg
    cases sel with
    | none => simp [pdfPageHandleFileChange] at hg
    | some f =>
      by_cases h : f.mimeType = "application/pdf"
      · simp only [pdfPageHandleFileChange, if_pos h] at hg
        rw [Option.some.injEq] at hg
        rw [← hg]
        exact h
      · simp only [pdfPageHandleFileChange, if_neg h] at hg
        exact absurd hg (by simp)
  · intro f st h
    exact ⟨by simp [handleFileChange, h], by simp [handleFileChange, h]⟩
  · intro f st h
    exact ⟨by simp [pdfPageHandleFileChange, h],
      by simp [pdfPageHandleFileChange, h]⟩
  · intro fd st req hinv hsub
    cases hpf : st.pdfFile with
    | none =>
      unfold submitPdfRequest at hsub
      rw [hpf] at hsub
      split at hsub <;> simp at hsub
    | some f =>
      unfold submitPdfRequest at hsub
      rw [hpf] at hsub
      split at hsub
      · rw [Option.some.injEq] at hsub
        rw [← hsub]
        exact hinv f hpf
      · simp at hsub

/-- C9 witness: selecting a plain-text file on the empty generator page
resets `pdfFile` and clears the input; the concrete PDF submission carries
a file whose MIME type is application/pdf. -/
theorem pdf_file_guard_witness :
    (handleFileChange (some fileTxt) emptyGenFileState).pdfFile = none ∧
    (handleFileChange (some fileTxt) emptyGenFileState).inputValue = none ∧
    reqPdfW.file.mimeType = "application/pdf" :=
  ⟨(pdf_file_guard.2.2.1 fileTxt emptyGenFileState (by decide)).1,
   (pdf_file_guard.2.2.1 fileTxt emptyGenFileState (by decide)).2,
   pdf_file_guard.2.2.2.2 fdShort stPdfW reqPdfW
     (fun f hf => by
        simp only [stPdfW] at hf
        rw [Option.some.injEq] at hf
        rw [← hf]
        rfl)
     (by decide)⟩

/-- C10: the questions page computes the page total from the current
response's length, fetched with limit ten — so the total is always one, the
Next button is disabled on page one, and clicking Next cannot leave page
one, regardless of how many questions are stored. -/
theorem pagination_single_page :
    (∀ n : Nat, n ≤ itemsPerPage →
        computeTotalPages n = 1 ∧
        nextButtonDisabled 1 (computeTotalPages n) = true ∧
        nextPageClick (computeTotalPages n) 1 = 1) ∧
    (∀ (all : List String) (skip : Nat),
        (fetchPage all skip itemsPerPage).length ≤ itemsPerPage ∧
        computeTotalPages (fetchPage all skip itemsPerPage).length = 1) := by
  have hmain : ∀ n : Nat, n ≤ itemsPerPage → computeTotalPages n = 1 := by
    intro n hn
    unfold computeTotalPages itemsPerPage at *
    apply Nat.max_eq_left
    omega
  refine ⟨fun n hn => ⟨hmain n hn, ?_, ?_⟩, fun all skip => ?_⟩
  · rw [hmain n hn]; rfl
  · rw [hmain n hn]; rfl
  · have hlen : (fetchPage all skip itemsPerPage).length ≤ itemsPerPage := by
      unfold fetchPage
      exact List.length_take_le _ _
    exact ⟨hlen, hmain _ hlen⟩

/-- C10 witness: a seven-item response yields one total page with the Next
button disabled and Next clicks pinned to page one. -/
theorem pagination_single_page_witness :
    computeTotalPages 7 = 1 ∧
    nextButtonDisabled 1 (computeTotalPages 7) = true ∧
    nextPageClick (computeTotalPages 7) 1 = 1 :=
  pagination_single_page.1 7 (by decide)

end EduQGen
